import Mathlib

/-!
Verification of the meet-transcriber real-time transcription pipeline.

The development shallowly embeds the two transcription-client modules
(`src/unnamed/part_000`: the confidence-filtering client used by the
offscreen document, and the retry/backoff client variant that also hosts
`validateApiKey`) together with the offscreen capture pipeline
(`src/entrypoints/offscreen/main.ts`).  Network behaviour is modelled as
an explicit parameter (the HTTP outcome each fetch would observe), and
the JavaScript event loop's run-to-completion semantics is modelled by
treating each synchronous code region as one atomic state transition.
-/

namespace MeetTranscriber

/-- JavaScript's `String.prototype.trim`, modelled directly on the
character sequence: drop whitespace from both ends. -/
def trimString (s : String) : String :=
  String.mk ((s.data.dropWhile Char.isWhitespace).reverse.dropWhile Char.isWhitespace).reverse

/-! ## Confidence-filtering transcription client (first module of src/unnamed/part_000) -/

/-- Threshold on `no_speech_prob` above which a segment is filtered out
(`0.5` in the source). -/
def NO_SPEECH_THRESHOLD : ℚ := mkRat 1 2

/-- Threshold on `avg_logprob` below which a segment is filtered out
(`-0.5` in the source). -/
def AVG_LOGPROB_THRESHOLD : ℚ := mkRat (-1) 2

/-- One segment of a Groq `verbose_json` response
(`GroqSegment` in the source). -/
structure GroqSegment where
  text : String
  start : ℚ
  stop : ℚ
  no_speech_prob : ℚ
  avg_logprob : ℚ
deriving DecidableEq

/-- Body of a successful Groq `verbose_json` response
(`GroqVerboseResponse` in the source). -/
structure GroqVerboseResponse where
  text : String
  segments : List GroqSegment
  duration : ℚ
deriving DecidableEq

/-- Outcome of the single `fetch` performed by `transcribeAudio`:
a 2xx response with a parsed body, a non-2xx response with its status
code, or a thrown network error. -/
inductive FetchOutcome where
  | ok (body : GroqVerboseResponse)
  | httpError (status : Nat)
  | networkError (message : String)
deriving DecidableEq

/-- Rejection test of the segment filter: `hasNoSpeech || isLowConfidence`
(the body of the `.filter` callback in `transcribeAudio`, negated). -/
def segmentFiltered (seg : GroqSegment) : Bool :=
  decide (seg.no_speech_prob > NO_SPEECH_THRESHOLD)
    || decide (seg.avg_logprob < AVG_LOGPROB_THRESHOLD)

/-- `validSegments`: the segments surviving the confidence filter. -/
def validSegments (segments : List GroqSegment) : List GroqSegment :=
  segments.filter (fun seg => !(segmentFiltered seg))

/-- The text assembled from a response's segments:
`validSegments.map((seg) => seg.text).join('').trim()`. -/
def transcriptText (segments : List GroqSegment) : String :=
  trimString (String.join ((validSegments segments).map (fun seg => seg.text)))

/-- Return value of `transcribeAudio`: `TranscriptionResult` on success,
`TranscriptionError` (message and code) otherwise. -/
inductive TranscriptionOutcome where
  | result (text : String) (duration : ℚ)
  | error (message : String) (code : String)
deriving DecidableEq

/-- `transcribeAudio` (confidence-filtering variant) as a function of the
fetch outcome: on a 2xx response it filters the segments and returns the
joined, trimmed text; on a non-2xx response or a network error it
returns a `TranscriptionError`. -/
def transcribeAudio : FetchOutcome → TranscriptionOutcome
  | .ok body => .result (transcriptText body.segments) body.duration
  | .httpError status => .error ("API error: " ++ toString status) (toString status)
  | .networkError message => .error message "NETWORK_ERROR"

/-- `isTranscriptionError`: type guard distinguishing the two outcomes. -/
def isTranscriptionError : TranscriptionOutcome → Bool
  | .result _ _ => false
  | .error _ _ => true

/-! ## Offscreen capture pipeline (src/entrypoints/offscreen/main.ts) -/

/-- Which stream `streamToRecord` points at: the tab stream alone or the
mixed destination stream. -/
inductive RecordSource where
  | tabOnly
  | mixed
deriving DecidableEq

/-- The module-level mutable state of the offscreen document.  Streams,
recorder and audio contexts are abstracted to liveness booleans;
`currentChunks` keeps the byte sizes of the recorded chunks. -/
structure OffscreenState where
  apiKey : String
  language : String
  sequenceNumber : Nat
  isCapturing : Bool
  recordingTimer : Bool
  recorderRecording : Bool
  currentChunks : List Nat
  tabStreamLive : Bool
  micStreamLive : Bool
  mixingContextOpen : Bool
  playbackContextOpen : Bool
  streamToRecord : Option RecordSource
deriving DecidableEq

/-- The initial module-level state of the offscreen document. -/
def initialState : OffscreenState :=
  { apiKey := ""
    language := "zh"
    sequenceNumber := 0
    isCapturing := false
    recordingTimer := false
    recorderRecording := false
    currentChunks := []
    tabStreamLive := false
    micStreamLive := false
    mixingContextOpen := false
    playbackContextOpen := false
    streamToRecord := none }

/-- A `TRANSCRIPT_RESULT` message sent towards the sink
(the real-time `timestamp` field is out of scope). -/
structure TranscriptResultMsg where
  text : String
  sequenceNumber : Nat
  isFinal : Bool
deriving DecidableEq

/-- Control messages the offscreen document sends to the background. -/
inductive ControlMsg where
  | captureStarted
  | captureStopped
  | captureError (message : String)
deriving DecidableEq

/-- Result of one `processAudioBlob` run: the updated state, the
transcript message sent (if any), and whether `transcribeAudio` (the
remote API) was invoked at all. -/
structure ProcessOutcome where
  state : OffscreenState
  sent : Option TranscriptResultMsg
  calledApi : Bool
deriving DecidableEq

/-- `processAudioBlob`: drops blobs under 5000 bytes, skips when no API
key is set, calls `transcribeAudio`, drops errors and empty texts, and
otherwise sends a `TRANSCRIPT_RESULT` carrying `sequenceNumber++`.
`fetched` is the HTTP outcome the unit's API call would observe. -/
def processAudioBlob (st : OffscreenState) (blobSize : Nat) (fetched : FetchOutcome) :
    ProcessOutcome :=
  if blobSize < 5000 then ⟨st, none, false⟩
  else if st.apiKey = "" then ⟨st, none, false⟩
  else
    match transcribeAudio fetched with
    | .error _ _ => ⟨st, none, true⟩
    | .result text _ =>
      if (trimString text).length = 0 then ⟨st, none, true⟩
      else
        ⟨{ st with sequenceNumber := st.sequenceNumber + 1 },
          some ⟨text, st.sequenceNumber, true⟩, true⟩

/-- One capture session's transcription completions, in completion
order: each entry is one finalized recording cycle's blob size together
with the HTTP outcome its (possibly much later) API call observes.
Folding `processAudioBlob` over them yields the final state and the
transcript messages delivered to the sink, in delivery order. -/
def runSession (st : OffscreenState) :
    List (Nat × FetchOutcome) → OffscreenState × List TranscriptResultMsg
  | [] => (st, [])
  | (blobSize, fetched) :: rest =>
    let step := processAudioBlob st blobSize fetched
    let tail := runSession step.state rest
    (tail.1, step.sent.toList ++ tail.2)

/-- The payload of a `START_CAPTURE` message. -/
structure StartCaptureMsg where
  streamId : String
  language : String
  apiKey : String
  chunkDuration : Nat
  includeMicrophone : Bool
  microphoneDeviceLabel : String

/-- `startRecordingCycle`: no-op without a stream or when not capturing;
otherwise clears `currentChunks`, starts the recorder and arms the
cycle timer. -/
def startRecordingCycle (st : OffscreenState) : OffscreenState :=
  if st.streamToRecord.isNone || !st.isCapturing then st
  else { st with currentChunks := [], recorderRecording := true, recordingTimer := true }

/-- `handleStartCapture` as one atomic transition.  `tabAcquired` states
whether `getUserMedia` for the tab stream succeeds; `micAcquired`
whether the microphone enumeration/acquisition block succeeds.  Returns
the new state and the control messages sent to the background. -/
def handleStartCapture (st : OffscreenState) (msg : StartCaptureMsg)
    (tabAcquired micAcquired : Bool) : OffscreenState × List ControlMsg :=
  if st.isCapturing then (st, [])
  else
    let st1 := { st with
      apiKey := msg.apiKey
      language := if msg.language = "" then "zh" else msg.language
      sequenceNumber := 0 }
    if st1.apiKey = "" then (st1, [.captureError "missing API key"])
    else if !tabAcquired then (st1, [.captureError "failed to acquire tab audio"])
    else
      let st2 := { st1 with tabStreamLive := true, playbackContextOpen := true }
      let st3 :=
        if msg.includeMicrophone then
          if micAcquired then
            { st2 with
              micStreamLive := true
              mixingContextOpen := true
              streamToRecord := some .mixed }
          else { st2 with streamToRecord := some .tabOnly }
        else { st2 with streamToRecord := some .tabOnly }
      let st4 := { st3 with isCapturing := true }
      (startRecordingCycle st4, [.captureStarted])

/-- The synchronous body of `handleStopCapture`: clears the capture
flag, the timer and all stream/recorder/context resources, and resets
`apiKey` and `currentChunks`.  The third component records whether
`mediaRecorder.stop()` was called on a recording recorder (so that its
`dataavailable`/`stop` events are queued behind this transition). -/
def handleStopCapture (st : OffscreenState) :
    OffscreenState × List ControlMsg × Bool :=
  ({ st with
      isCapturing := false
      recordingTimer := false
      recorderRecording := false
      tabStreamLive := false
      micStreamLive := false
      mixingContextOpen := false
      playbackContextOpen := false
      streamToRecord := none
      apiKey := ""
      currentChunks := [] },
    [.captureStopped], st.recorderRecording)

/-- The recorder's `ondataavailable` handler: pushes a non-empty chunk
onto `currentChunks`. -/
def recorderDataAvailable (st : OffscreenState) (dataSize : Nat) : OffscreenState :=
  if dataSize > 0 then { st with currentChunks := st.currentChunks ++ [dataSize] }
  else st

/-- The recorder's `onstop` handler: if any chunks were recorded this
cycle, assembles them into one blob and runs `processAudioBlob` on it. -/
def recorderOnStop (st : OffscreenState) (fetched : FetchOutcome) : ProcessOutcome :=
  if st.currentChunks.length = 0 then ⟨st, none, false⟩
  else processAudioBlob st st.currentChunks.sum fetched

/-- Combined result of a stop request including the recorder's deferred
events. -/
structure StopOutcome where
  state : OffscreenState
  control : List ControlMsg
  sent : Option TranscriptResultMsg
  calledApi : Bool
deriving DecidableEq

/-- A complete `STOP_CAPTURE` handling: the synchronous
`handleStopCapture` body runs to completion first; only then do the
recorder's queued `dataavailable` (carrying the partial cycle's
`bufferedSize` bytes) and `stop` events run. -/
def stopCapture (st : OffscreenState) (bufferedSize : Nat) (fetched : FetchOutcome) :
    StopOutcome :=
  let stopped := handleStopCapture st
  if stopped.2.2 then
    let st2 := recorderDataAvailable stopped.1 bufferedSize
    let flushed := recorderOnStop st2 fetched
    ⟨flushed.state, stopped.2.1, flushed.sent, flushed.calledApi⟩
  else ⟨stopped.1, stopped.2.1, none, false⟩

/-! ## Retry/backoff transcription client (second module of src/unnamed/part_000) -/

/-- `MAX_RETRIES`: the total attempt ceiling of the retry loop. -/
def MAX_RETRIES : Nat := 3

/-- `INITIAL_RETRY_DELAY`: the base backoff delay in milliseconds. -/
def INITIAL_RETRY_DELAY : Nat := 1000

/-- One segment of the retry variant's `verbose_json` response
(`WhisperSegment` in the source). -/
structure WhisperSegment where
  text : String
  start : ℚ
  stop : ℚ
  no_speech_prob : ℚ
deriving DecidableEq

/-- Body of a successful response in the retry variant
(`WhisperVerboseResponse` in the source). -/
structure WhisperVerboseResponse where
  text : String
  segments : List WhisperSegment
deriving DecidableEq

/-- Outcome of one fetch attempt of the retry variant. -/
inductive ApiReply where
  | ok (body : WhisperVerboseResponse)
  | httpError (status : Nat)
  | networkError (message : String)
deriving DecidableEq

/-- `data.segments?.length > 0 ? Math.max(...map(no_speech_prob)) : 0`. -/
def maxNoSpeechProb (segments : List WhisperSegment) : ℚ :=
  match segments.map (fun s => s.no_speech_prob) with
  | [] => 0
  | p :: ps => ps.foldl max p

/-- Return value of the retry variant: `TranscriptionResult` (trimmed
text plus the maximal `no_speech_prob`) or `TranscriptionError` (message
plus its `isRetryable` flag). -/
inductive RetryOutcome where
  | success (text : String) (noSpeechProb : ℚ)
  | failure (message : String) (isRetryable : Bool)
deriving DecidableEq

/-- Observable trace of one `transcribeAudio` call of the retry variant:
the returned value, the backoff delays slept (in order), and the number
of fetch attempts made. -/
structure RetryTrace where
  outcome : RetryOutcome
  delays : List Nat
  attempts : Nat
deriving DecidableEq

/-- The body of the retry variant's `for (attempt = 0; attempt < MAX_RETRIES; ...)`
loop.  `replies n` is the outcome of the fetch on attempt `n`;
`lastError` is the error message carried across iterations; `remaining`
is `MAX_RETRIES - attempt`.  A 2xx reply returns the trimmed text; 401
returns a non-retryable failure immediately; 429, 5xx and network errors
sleep `INITIAL_RETRY_DELAY * 2 ^ attempt` and continue; other statuses
return a non-retryable failure immediately; an exhausted loop returns a
failure flagged `isRetryable := true`. -/
def transcribeWithRetryAux (replies : Nat → ApiReply) :
    (lastError : String) → (attempt remaining : Nat) → RetryTrace
  | lastError, _, 0 => ⟨.failure ("transcription failed: " ++ lastError) true, [], 0⟩
  | _, attempt, remaining + 1 =>
    match replies attempt with
    | .ok body =>
        ⟨.success (trimString body.text) (maxNoSpeechProb body.segments), [], 1⟩
    | .httpError status =>
        if status = 401 then ⟨.failure "invalid API key" false, [], 1⟩
        else if status = 429 then
          let d := INITIAL_RETRY_DELAY * 2 ^ attempt
          let t := transcribeWithRetryAux replies "rate limited" (attempt + 1) remaining
          ⟨t.outcome, d :: t.delays, t.attempts + 1⟩
        else if 500 ≤ status then
          let d := INITIAL_RETRY_DELAY * 2 ^ attempt
          let t := transcribeWithRetryAux replies ("server error " ++ toString status)
            (attempt + 1) remaining
          ⟨t.outcome, d :: t.delays, t.attempts + 1⟩
        else ⟨.failure ("API error " ++ toString status) false, [], 1⟩
    | .networkError message =>
        let d := INITIAL_RETRY_DELAY * 2 ^ attempt
        let t := transcribeWithRetryAux replies message (attempt + 1) remaining
        ⟨t.outcome, d :: t.delays, t.attempts + 1⟩

/-- `transcribeAudio` of the retry variant, as its observable trace. -/
def transcribeWithRetry (replies : Nat → ApiReply) : RetryTrace :=
  transcribeWithRetryAux replies "" 0 MAX_RETRIES

/-- Outcome of the probe fetch performed by `validateApiKey`. -/
inductive ProbeReply where
  | status (code : Nat)
  | networkError
deriving DecidableEq

/-- `validateApiKey`: false for an empty/blank key, false on a network
error, and otherwise `response.status !== 401`. -/
def validateApiKey (apiKey : String) (reply : ProbeReply) : Bool :=
  if apiKey = "" || (trimString apiKey).length = 0 then false
  else
    match reply with
    | .status code => code != 401
    | .networkError => false

/-! ## Concrete demonstration inputs -/

/-- A segment list matching the spec's filter scenario: a confident
"hello" segment and a high-`no_speech_prob` "um" segment. -/
def demoSegments : List GroqSegment :=
  [⟨"hello", 0, 1, mkRat 1 10, mkRat (-1) 5⟩, ⟨"um", 1, 2, mkRat 9 10, mkRat (-3) 10⟩]

/-- A successful response body whose filtered text is `"hello"`. -/
def demoBody : GroqVerboseResponse := ⟨"hello um", demoSegments, 2⟩

/-- A mid-session offscreen state: capturing, key set, counter at 0. -/
def demoState : OffscreenState :=
  { apiKey := "gsk_demo"
    language := "en"
    sequenceNumber := 0
    isCapturing := true
    recordingTimer := true
    recorderRecording := true
    currentChunks := []
    tabStreamLive := true
    micStreamLive := false
    mixingContextOpen := false
    playbackContextOpen := true
    streamToRecord := some .tabOnly }

/-! ## Helper lemmas -/

/-- Each `processAudioBlob` run either leaves the state untouched and
sends nothing, or sends exactly one message carrying the pre-state
counter and increments the counter by one. -/
theorem processAudioBlob_step (st : OffscreenState) (blobSize : Nat) (fetched : FetchOutcome) :
    ((processAudioBlob st blobSize fetched).sent = none ∧
      (processAudioBlob st blobSize fetched).state = st) ∨
    (∃ text, (processAudioBlob st blobSize fetched).sent = some ⟨text, st.sequenceNumber, true⟩ ∧
      (processAudioBlob st blobSize fetched).state =
        { st with sequenceNumber := st.sequenceNumber + 1 }) := by
  unfold processAudioBlob
  by_cases h1 : blobSize < 5000
  · simp [h1]
  · by_cases h2 : st.apiKey = ""
    · simp [h1, h2]
    · cases hf : transcribeAudio fetched with
      | error m c => simp [h1, h2, hf]
      | result text d =>
        by_cases h3 : (trimString text).length = 0
        · simp [h1, h2, hf, h3]
        · right
          exact ⟨text, by simp [h1, h2, hf, h3]⟩

/-- The messages a session run delivers carry exactly the consecutive
counter values starting at the initial counter, and the final counter
equals the initial counter plus the number of delivered messages. -/
theorem runSession_seq_range (evs : List (Nat × FetchOutcome)) : ∀ st : OffscreenState,
    ((runSession st evs).2.map (fun m => m.sequenceNumber) =
      List.range' st.sequenceNumber (runSession st evs).2.length) ∧
    (runSession st evs).1.sequenceNumber = st.sequenceNumber + (runSession st evs).2.length := by
  induction evs with
  | nil =>
    intro st
    constructor
    · rfl
    · rfl
  | cons ev rest ih =>
    intro st
    obtain ⟨blobSize, fetched⟩ := ev
    have hrun : runSession st ((blobSize, fetched) :: rest) =
        ((runSession (processAudioBlob st blobSize fetched).state rest).1,
          (processAudioBlob st blobSize fetched).sent.toList ++
            (runSession (processAudioBlob st blobSize fetched).state rest).2) := rfl
    rcases processAudioBlob_step st blobSize fetched with ⟨h1, h2⟩ | ⟨text, h1, h2⟩
    · rw [hrun, h1, h2]
      simpa using ih st
    · rw [hrun, h1, h2]
      obtain ⟨ihm, ihc⟩ := ih { st with sequenceNumber := st.sequenceNumber + 1 }
      refine ⟨?_, ?_⟩
      · simp only [Option.toList_some, List.singleton_append, List.map_cons, List.length_cons]
        rw [ihm]
        simp [List.range'_succ]
      · simp only [Option.toList_some, List.singleton_append, List.length_cons]
        simp only [ihc]
        omega

/-! ## Claim theorems -/

/-- C1: for any capture-session state and any order in which the
transcription calls for the recorded audio units complete or are
abandoned (the event list, given in completion order), the sequence
numbers of the transcript fragments delivered to the sink are strictly
increasing, with no duplicates. -/
theorem delivered_sequence_numbers_strictly_increasing
    (st : OffscreenState) (evs : List (Nat × FetchOutcome)) :
    ((runSession st evs).2.map (fun m => m.sequenceNumber)).Pairwise (· < ·) ∧
    ((runSession st evs).2.map (fun m => m.sequenceNumber)).Nodup := by
  obtain ⟨hm, -⟩ := runSession_seq_range evs st
  rw [hm]
  exact ⟨List.pairwise_lt_range' _ _, List.nodup_range' _ _⟩

/-- C10: within one capture session the n-th transcript-result message
actually emitted carries sequence number n−1, so the emitted numbers are
exactly the contiguous run 0, 1, 2, …: `handleStartCapture` resets the
counter to 0, a session run from a zero counter emits exactly the
numbers `0, …, k−1`, and any `processAudioBlob` run that emits nothing
(too small, failed, or empty transcription) leaves the counter
untouched. -/
theorem emitted_numbers_contiguous_from_zero
    (msg : StartCaptureMsg) (tabAcquired micAcquired : Bool)
    (evs : List (Nat × FetchOutcome)) :
    (handleStartCapture initialState msg tabAcquired micAcquired).1.sequenceNumber = 0 ∧
    (∀ st : OffscreenState, st.sequenceNumber = 0 →
      (runSession st evs).2.map (fun m => m.sequenceNumber) =
        List.range (runSession st evs).2.length) ∧
    (∀ (st : OffscreenState) (blobSize : Nat) (fetched : FetchOutcome),
      (processAudioBlob st blobSize fetched).sent = none →
      (processAudioBlob st blobSize fetched).state.sequenceNumber = st.sequenceNumber) := by
  refine ⟨?_, ?_, ?_⟩
  · by_cases hk : msg.apiKey = "" <;> by_cases ht : tabAcquired <;>
      by_cases hm : msg.includeMicrophone <;> by_cases hma : micAcquired <;>
      simp [handleStartCapture, startRecordingCycle, initialState, hk, ht, hm, hma]
  · intro st hz
    obtain ⟨hm, -⟩ := runSession_seq_range evs st
    rw [hm, hz, List.range_eq_range']
  · intro st blobSize fetched hnone
    rcases processAudioBlob_step st blobSize fetched with ⟨-, h2⟩ | ⟨text, h1, -⟩
    · rw [h2]
    · rw [hnone] at h1
      cases h1

/-- C10 witness: a concrete session run from a zero counter with one
successful unit emits exactly the contiguous numbers `0, …, k−1`. -/
theorem emitted_numbers_contiguous_from_zero_witness :
    (runSession demoState [(6000, .ok demoBody)]).2.map (fun m => m.sequenceNumber) =
      List.range (runSession demoState [(6000, .ok demoBody)]).2.length :=
  (emitted_numbers_contiguous_from_zero ⟨"sid", "en", "gsk_demo", 3000, false, ""⟩ true true
    [(6000, .ok demoBody)]).2.1 demoState rfl

/-- C2 counterexample: the second captured unit of a session is
delivered with sequence number 0 when the first unit's transcription
call fails, but with sequence number 1 when the first unit's call
succeeds — the number a unit carries depends on the transcription
outcomes of other units, so sequence numbers are not assigned at capture
time before transcription work, and a unit whose transcription fails
never consumes a number at all. -/
theorem capture_time_numbering_counterexample :
    (runSession demoState [(6000, .httpError 500), (6000, .ok demoBody)]).2 =
      [⟨"hello", 0, true⟩] ∧
    (runSession demoState [(6000, .ok demoBody), (6000, .ok demoBody)]).2 =
      [⟨"hello", 0, true⟩, ⟨"hello", 1, true⟩] := by
  constructor <;> decide

/-- C2 (amended): sequence numbers are assigned at delivery time, not at
capture time: a `processAudioBlob` run that sends nothing leaves the
state (including the counter) unchanged, and a run that sends a message
stamps it with the current counter value and increments the counter —
which happens exactly for a ≥5000-byte unit, with an API key set, whose
transcription succeeded with non-empty trimmed text.  Numbers are
0-based per session, strictly increasing in delivery order, and never
reused. -/
theorem sequence_assigned_at_delivery (st : OffscreenState) (blobSize : Nat)
    (fetched : FetchOutcome) :
    ((processAudioBlob st blobSize fetched).sent = none →
      (processAudioBlob st blobSize fetched).state = st) ∧
    (∀ m, (processAudioBlob st blobSize fetched).sent = some m →
      m.sequenceNumber = st.sequenceNumber ∧
      (processAudioBlob st blobSize fetched).state =
        { st with sequenceNumber := st.sequenceNumber + 1 } ∧
      5000 ≤ blobSize ∧ st.apiKey ≠ "" ∧
      isTranscriptionError (transcribeAudio fetched) = false) := by
  unfold processAudioBlob
  by_cases h1 : blobSize < 5000
  · simp [h1]
  · by_cases h2 : st.apiKey = ""
    · simp [h1, h2]
    · cases hf : transcribeAudio fetched with
      | error m c => simp [h1, h2, hf]
      | result text d =>
        by_cases h3 : (trimString text).length = 0
        · simp [h1, h2, hf, h3]
        · refine ⟨by simp [h1, h2, hf, h3], ?_⟩
          intro m hm
          simp only [if_neg h1, if_neg h2, hf, if_neg h3] at hm
          obtain rfl : (⟨text, st.sequenceNumber, true⟩ : TranscriptResultMsg) = m :=
            Option.some.inj hm
          exact ⟨rfl, by simp [h1, h2, hf, h3], by omega, h2, by simp [hf, isTranscriptionError]⟩

/-- C2 witness: the amended delivery-time assignment at a concrete
input: a 6000-byte unit with a successful "hello" transcription is
stamped with the current counter and the counter advances. -/
theorem sequence_assigned_at_delivery_witness :
    (processAudioBlob demoState 6000 (.ok demoBody)).state =
      { demoState with sequenceNumber := demoState.sequenceNumber + 1 } :=
  (((sequence_assigned_at_delivery demoState 6000 (.ok demoBody)).2
    ⟨"hello", 0, true⟩ (by decide)).2).1

/-- C6 counterexample: a 4000-byte unit is discarded without calling the
transcription client, and the next successful unit is then delivered
with sequence number 0 — the discard did not consume a sequence number
and left no gap (under the claim the delivered fragment would carry
number 1, after a permanent gap at 0). -/
theorem small_unit_no_gap_counterexample :
    (processAudioBlob demoState 4000 (.ok demoBody)).calledApi = false ∧
    (runSession demoState [(4000, .ok demoBody), (6000, .ok demoBody)]).2 =
      [⟨"hello", 0, true⟩] := by
  constructor <;> decide

/-- C6 (amended): every finalized audio unit below the 5000-byte
threshold is discarded before reaching the transcription client, but the
discard does not consume a sequence number: the state — counter
included — is left completely unchanged, so the next delivered unit
takes the same next number and no gap appears in the delivered stream. -/
theorem small_unit_discarded_no_number (st : OffscreenState) (blobSize : Nat)
    (fetched : FetchOutcome) (h : blobSize < 5000) :
    processAudioBlob st blobSize fetched = ⟨st, none, false⟩ := by
  unfold processAudioBlob
  simp [h]

/-- C6 witness: the amended discard behaviour at a concrete 4000-byte
unit. -/
theorem small_unit_discarded_no_number_witness :
    4000 < 5000 ∧ processAudioBlob demoState 4000 (.ok demoBody) = ⟨demoState, none, false⟩ :=
  ⟨by decide, small_unit_discarded_no_number demoState 4000 (.ok demoBody) (by decide)⟩

/-- C5 counterexample: after a unit's transcription call answers
HTTP 401 the session is not aborted: the very next unit is still
transcribed and delivered (with sequence number 0) and the session is
still capturing — the caller continues with later units instead of
aborting the capture session. -/
theorem auth_failure_session_continues_counterexample :
    (runSession demoState [(6000, .httpError 401), (6000, .ok demoBody)]).2 =
      [⟨"hello", 0, true⟩] ∧
    (runSession demoState [(6000, .httpError 401), (6000, .ok demoBody)]).1.isCapturing
      = true := by
  constructor <;> decide

/-- C5 (amended): a single HTTP 401 response produces an immediate
non-retryable error with zero retries — one attempt, no backoff sleeps,
the unit is never resubmitted — but the caller does not abort the
capture session: `processAudioBlob` abandons only that unit, leaving the
session state (capturing flag included) unchanged and continuing with
later units. -/
theorem auth_failure_no_retry (replies : Nat → ApiReply)
    (h401 : replies 0 = .httpError 401)
    (st : OffscreenState) (blobSize : Nat)
    (hsize : 5000 ≤ blobSize) (hkey : st.apiKey ≠ "") :
    transcribeWithRetry replies = ⟨.failure "invalid API key" false, [], 1⟩ ∧
    processAudioBlob st blobSize (.httpError 401) = ⟨st, none, true⟩ := by
  constructor
  · unfold transcribeWithRetry MAX_RETRIES transcribeWithRetryAux
    rw [h401]
    simp
  · unfold processAudioBlob
    have h1 : ¬blobSize < 5000 := by omega
    simp [h1, hkey, transcribeAudio]

/-- C5 witness: the amended 401 behaviour at a service constantly
answering 401 and a concrete capturing session. -/
theorem auth_failure_no_retry_witness :
    transcribeWithRetry (fun _ => .httpError 401) = ⟨.failure "invalid API key" false, [], 1⟩ ∧
    processAudioBlob demoState 6000 (.httpError 401) = ⟨demoState, none, true⟩ :=
  auth_failure_no_retry (fun _ => .httpError 401) rfl demoState 6000 (by decide) (by decide)

/-- C4 counterexample: after exhausting its attempts on constant 500
responses the retry client returns an error flagged
`isRetryable := true` — the retryable classification — whereas the
drop-classified errors it produces for non-retryable per-unit failures
(e.g. HTTP 400) are flagged `isRetryable := false`; so exhaustion does
not return a drop-class error as the claim states. -/
theorem retry_exhaustion_flag_counterexample :
    (transcribeWithRetry (fun _ => .httpError 500)).outcome =
      .failure ("transcription failed: " ++ "server error 500") true ∧
    (transcribeWithRetry (fun _ => .httpError 400)).outcome =
      .failure ("API error " ++ "400") false := by
  constructor <;> decide

/-- C4 (amended): when every submission attempt of an audio unit
receives a server-side 500-class response, the client retries that same
unit up to the fixed ceiling of `MAX_RETRIES = 3` attempts with
exponentially growing delays 1000 ms, 2000 ms, 4000 ms (base delay
doubling per attempt) and, after exhausting the attempts, returns a
failure flagged `isRetryable := true` (not a drop-class flag); the
pipeline treats any transcription failure by abandoning only that unit,
leaving the session state unchanged. -/
theorem retry_backoff_exhaustion (replies : Nat → ApiReply)
    (h : ∀ n, replies n = .httpError 500)
    (st : OffscreenState) (blobSize : Nat)
    (hsize : 5000 ≤ blobSize) (hkey : st.apiKey ≠ "") :
    (transcribeWithRetry replies).attempts = MAX_RETRIES ∧
    (transcribeWithRetry replies).delays = [1000, 2000, 4000] ∧
    (∃ message, (transcribeWithRetry replies).outcome = .failure message true) ∧
    processAudioBlob st blobSize (.httpError 500) = ⟨st, none, true⟩ := by
  have hrun : transcribeWithRetry replies =
      ⟨.failure ("transcription failed: " ++ "server error 500") true,
        [1000, 2000, 4000], 3⟩ := by
    unfold transcribeWithRetry MAX_RETRIES
    norm_num [transcribeWithRetryAux, h, INITIAL_RETRY_DELAY]
    decide
  refine ⟨by rw [hrun]; rfl, by rw [hrun], ⟨_, by rw [hrun]⟩, ?_⟩
  unfold processAudioBlob
  have h1 : ¬blobSize < 5000 := by omega
  simp [h1, hkey, transcribeAudio]

/-- C4 witness: the amended retry/backoff behaviour at a service
constantly answering 500 and a concrete capturing session. -/
theorem retry_backoff_exhaustion_witness :
    (transcribeWithRetry (fun _ => .httpError 500)).attempts = MAX_RETRIES ∧
    (transcribeWithRetry (fun _ => .httpError 500)).delays = [1000, 2000, 4000] ∧
    (∃ message, (transcribeWithRetry (fun _ => .httpError 500)).outcome =
      .failure message true) ∧
    processAudioBlob demoState 6000 (.httpError 500) = ⟨demoState, none, true⟩ :=
  retry_backoff_exhaustion (fun _ => .httpError 500) (fun _ => rfl) demoState 6000
    (by decide) (by decide)

/-- C7 counterexample: stopping mid-cycle with a 6000-byte buffered
partial window (above the 5000-byte minimum) and a healthy service: the
finalized final unit is never forwarded to the transcription client and
nothing is delivered — `handleStopCapture` clears the API key
synchronously before the recorder's queued stop event runs, so
`processAudioBlob` skips the unit. -/
theorem stop_final_cycle_counterexample :
    (stopCapture demoState 6000 (.ok demoBody)).calledApi = false ∧
    (stopCapture demoState 6000 (.ok demoBody)).sent = none := by
  constructor <;> decide

/-- C7 (amended): on stop the Segmenter cancels its cycle timer,
finalizes the partially recorded cycle via the recorder's stop event and
releases the audio sources (streams stopped, contexts closed, recorder
cleared) — but the final partial unit is never forwarded to the
transcription client, regardless of its size or of the service's
health, because the API key is cleared synchronously during stop before
the asynchronous stop event processes the unit. -/
theorem stop_releases_without_forwarding (st : OffscreenState) (bufferedSize : Nat)
    (fetched : FetchOutcome) :
    (stopCapture st bufferedSize fetched).state.isCapturing = false ∧
    (stopCapture st bufferedSize fetched).state.recordingTimer = false ∧
    (stopCapture st bufferedSize fetched).state.recorderRecording = false ∧
    (stopCapture st bufferedSize fetched).state.tabStreamLive = false ∧
    (stopCapture st bufferedSize fetched).state.micStreamLive = false ∧
    (stopCapture st bufferedSize fetched).state.mixingContextOpen = false ∧
    (stopCapture st bufferedSize fetched).state.playbackContextOpen = false ∧
    (stopCapture st bufferedSize fetched).state.streamToRecord = none ∧
    (stopCapture st bufferedSize fetched).state.apiKey = "" ∧
    (stopCapture st bufferedSize fetched).calledApi = false ∧
    (stopCapture st bufferedSize fetched).sent = none ∧
    (stopCapture st bufferedSize fetched).control = [.captureStopped] := by
  unfold stopCapture handleStopCapture recorderDataAvailable recorderOnStop processAudioBlob
  by_cases h : st.recorderRecording <;> by_cases h2 : bufferedSize > 0 <;>
    by_cases h3 : bufferedSize < 5000 <;>
    simp [h, h2, h3]

/-- C9: when microphone mixing is requested and microphone acquisition
fails, the session is not aborted: capture starts recording the tab
(remote-audio) stream only and reports `CAPTURE_STARTED`; whereas a
failure to acquire the mandatory tab stream aborts the whole start with
a `CAPTURE_ERROR` and the session never starts capturing. -/
theorem microphone_failure_degrades_gracefully (msg : StartCaptureMsg)
    (micAcquired : Bool) (hmic : msg.includeMicrophone = true) (hkey : msg.apiKey ≠ "") :
    ((handleStartCapture initialState msg true false).1.isCapturing = true ∧
      (handleStartCapture initialState msg true false).1.streamToRecord = some .tabOnly ∧
      (handleStartCapture initialState msg true false).2 = [.captureStarted]) ∧
    ((handleStartCapture initialState msg false micAcquired).1.isCapturing = false ∧
      (handleStartCapture initialState msg false micAcquired).2 =
        [.captureError "failed to acquire tab audio"]) := by
  unfold handleStartCapture startRecordingCycle
  simp [initialState, hmic, hkey]

/-- C9 witness: the degradation behaviour at a concrete start message
with microphone mixing requested. -/
theorem microphone_failure_degrades_gracefully_witness :
    ((handleStartCapture initialState ⟨"sid", "en", "gsk_demo", 3000, true, ""⟩
        true false).1.isCapturing = true ∧
      (handleStartCapture initialState ⟨"sid", "en", "gsk_demo", 3000, true, ""⟩
        true false).1.streamToRecord = some .tabOnly ∧
      (handleStartCapture initialState ⟨"sid", "en", "gsk_demo", 3000, true, ""⟩
        true false).2 = [.captureStarted]) ∧
    ((handleStartCapture initialState ⟨"sid", "en", "gsk_demo", 3000, true, ""⟩
        false false).1.isCapturing = false ∧
      (handleStartCapture initialState ⟨"sid", "en", "gsk_demo", 3000, true, ""⟩
        false false).2 = [.captureError "failed to acquire tab audio"]) :=
  microphone_failure_degrades_gracefully ⟨"sid", "en", "gsk_demo", 3000, true, ""⟩
    false rfl (by decide)

/-- C3: the confidence filter is a pure function of its segment list: a
segment is rejected iff its `no_speech_prob` exceeds 1/2 or its
`avg_logprob` is below −1/2; the survivors' text is concatenated in
original order with no separator and trimmed; an empty or all-rejected
segment list yields the empty string; and on the spec's concrete
two-segment scenario the output is "hello". -/
theorem confidence_filter_spec :
    (∀ seg : GroqSegment, segmentFiltered seg = true ↔
      seg.no_speech_prob > mkRat 1 2 ∨ seg.avg_logprob < mkRat (-1) 2) ∧
    (∀ segments : List GroqSegment, (∀ seg ∈ segments, segmentFiltered seg = false) →
      transcriptText segments =
        trimString (String.join (segments.map (fun seg => seg.text)))) ∧
    transcriptText [] = "" ∧
    (∀ segments : List GroqSegment, (∀ seg ∈ segments, segmentFiltered seg = true) →
      transcriptText segments = "") ∧
    transcriptText demoSegments = "hello" := by
  refine ⟨?_, ?_, by decide, ?_, by decide⟩
  · intro seg
    simp [segmentFiltered, NO_SPEECH_THRESHOLD, AVG_LOGPROB_THRESHOLD]
  · intro segments h
    unfold transcriptText validSegments
    rw [List.filter_eq_self.mpr]
    intro seg hs
    simp [h seg hs]
  · intro segments h
    unfold transcriptText validSegments
    rw [List.filter_eq_nil_iff.mpr]
    · decide
    · intro seg hs
      simp [h seg hs]

/-- C3 witness: the filter at concrete inputs: an all-rejected list
yields the empty string and the spec scenario yields "hello". -/
theorem confidence_filter_spec_witness :
    transcriptText [⟨"um", 0, 1, mkRat 9 10, mkRat (-3) 10⟩] = "" ∧
    transcriptText demoSegments = "hello" :=
  ⟨confidence_filter_spec.2.2.2.1 [⟨"um", 0, 1, mkRat 9 10, mkRat (-3) 10⟩] (by decide),
    confidence_filter_spec.2.2.2.2⟩

/-- C8: for a non-blank credential, the validation probe returns false
exactly when the service answers HTTP 401; any other status — HTTP 400
in particular — yields true. -/
theorem validate_credential_status_classification (apiKey : String) (code : Nat)
    (h : (trimString apiKey).length ≠ 0) :
    (validateApiKey apiKey (.status code) = false ↔ code = 401) ∧
    validateApiKey apiKey (.status 400) = true := by
  have hne : apiKey ≠ "" := by
    intro hk
    rw [hk] at h
    exact h (by decide)
  constructor
  · by_cases hc : code = 401 <;> simp [validateApiKey, hne, h, hc]
  · simp [validateApiKey, hne, h]

/-- C8 witness: the probe classification at a concrete non-blank key:
401 yields false, 400 yields true. -/
theorem validate_credential_status_classification_witness :
    ((validateApiKey "gsk_demo" (.status 401) = false ↔ (401 : Nat) = 401) ∧
      validateApiKey "gsk_demo" (.status 400) = true) :=
  validate_credential_status_classification "gsk_demo" 401 (by decide)

end MeetTranscriber
